import Mathlib

/-
Verification of the windowed sampling engine and query compiler of the
Repo-Hunting repository, as implemented in `src/github_search.py`.

The development is a shallow embedding of the two functions the claims are
about:

* `build_search_query` (query compiler, `github_search.py` lines 54-106) —
  embedded as a pure function on `Option`-typed filter fields.
* `fetch_repositories` (windowed sampler, `github_search.py` lines 109-236) —
  embedded as a pure function of its arguments together with
  - `mt : Int → Gen`, an abstract model of Python's `random.Random(seed)`
    (the Mersenne-Twister generator constructed from a seed; only its
    interface matters: a deterministic stream of `_randbelow` draws),
  - `g : Gen`, the state of the process-global generator used by the
    module-level `random.shuffle` on the legacy no-seed path,
  - `up : UpReq → HttpOutcome`, the HTTP collaborator
    (`requests.get` plus response parsing), returning either a transport
    failure or a status code with an optionally-parseable JSON body.

Machine integers are embedded as `Int` (Python ints are unbounded), Python
`//` as `Int.fdiv` guarded by an explicit `ZeroDivisionError`, Python list
indexing (including negative indices) as `pyIndex`, and Python dicts with
optional keys as structures with `Option`-typed fields (a missing key is
`none`).  The function result is an `Except PyErr` value paired with the
trace of upstream requests issued, so that "no upstream call" claims are
statements about the trace.
-/

namespace GithubSearch

/-- Python `min` on two ints: `min a b` returns `a` when `a ≤ b`, else `b`. -/
def pyMin (a b : Int) : Int := if a ≤ b then a else b

/-- Python runtime errors that the embedded code can raise. -/
inductive PyErr where
  | zeroDivision
  | indexError
deriving DecidableEq

/-- Python floor division `a // b`, raising `ZeroDivisionError` when `b = 0`.
Python `//` is floor division, which is exactly `Int.fdiv`. -/
def pyFloorDivE (a b : Int) : Except PyErr Int :=
  if b = 0 then .error .zeroDivision else .ok (Int.fdiv a b)

/-- Python list indexing `l[i]`: non-negative indices are positions from the
front, negative indices count from the back (`l[-1]` is the last element);
anything out of range raises `IndexError`. -/
def pyIndex (l : List α) (i : Int) : Except PyErr α :=
  if h : 0 ≤ i ∧ i.toNat < l.length then .ok (l.get ⟨i.toNat, h.2⟩)
  else if h2 : 0 ≤ i + l.length ∧ (i + l.length).toNat < l.length then
    .ok (l.get ⟨(i + l.length).toNat, h2.2⟩)
  else .error .indexError

/-- Abstract pseudo-random generator: `g k n` is the value returned by the
`k`-th `_randbelow(n)` call drawn from the generator.  Python's
`random.Random` guarantees `_randbelow(n) < n` for `n > 0`; that contract is
`Gen.Valid`. -/
def Gen : Type := Nat → Nat → Nat

/-- The `_randbelow` contract: every draw with a positive bound is below the
bound. -/
def Gen.Valid (g : Gen) : Prop := ∀ k n, 0 < n → g k n < n

/-- Python's `x[i], x[j] = x[j], x[i]` on a list (identity when an index is
out of range; the shuffle below only ever swaps in range). -/
def swapList (l : List α) (i j : Nat) : List α :=
  match l[i]?, l[j]? with
  | some a, some b => (l.set i b).set j a
  | _, _ => l

/-- The loop of CPython's `random.shuffle`:
`for i in reversed(range(1, len(x))): j = _randbelow(i+1); swap x[i] x[j]`.
The first argument of the recursion is the loop counter minus one (the loop
body for `i = c+1` swaps position `c+1` with `g k (c+2)` where `k` counts the
draws made so far). -/
def shuffleGo (g : Gen) : Nat → Nat → List α → List α
  | 0, _, l => l
  | c+1, k, l => shuffleGo g c (k+1) (swapList l (c+1) (g k (c+2)))

/-- Python's `random.shuffle(x)` driven by the abstract generator `g`. -/
def pyShuffle (g : Gen) (l : List α) : List α :=
  shuffleGo g (l.length - 1) 0 l

/-- Python's `list(range(1, m + 1))` for an int bound `m` (empty when
`m ≤ 0`). -/
def intRange1 (m : Int) : List Int :=
  (List.range' 1 m.toNat).map Int.ofNat

/-- The shuffled page table built by `fetch_repositories` lines 147-149:
`pages = list(range(1, max_pages + 1)); rng = random.Random(seed);`
`rng.shuffle(pages)`. -/
def pagePerm (g : Gen) (maxPages : Int) : List Int :=
  pyShuffle g (intRange1 maxPages)

/-- The parsed JSON body consumed from the provider: `items` and
`total_count` (the code reads them with `data.get("items", [])` and
`data.get("total_count", 0)`, so a body is fully described by these two
fields). -/
structure Body (Item : Type) where
  items : List Item
  total_count : Int
deriving DecidableEq

/-- Outcome of one call to the HTTP collaborator: a transport failure
(network error / timeout, i.e. a `requests` exception before a response
exists, whose `str` is `msg`) or a response with a status code and a JSON
body (`none` when the body does not parse as JSON). -/
inductive HttpOutcome (Item : Type) where
  | transport (msg : String)
  | response (status : Int) (body : Option (Body Item))

/-- The upstream request issued by `fetch_repositories` lines 166-172
(`params` plus the auth header). -/
structure UpReq where
  q : String
  sort : String
  order : String
  per_page : Int
  page : Int
  auth : Option String
deriving DecidableEq

/-- The result dictionary of `fetch_repositories`.  Keys that are present
only in some branches are `Option`-typed; `none` means the key is absent
from the returned dict.  (`seed` is doubly optional: the key may be absent,
and when present its value may be Python `None`.) -/
structure Envelope (Item : Type) where
  success : Bool
  repos : List Item
  total_count : Int
  error : Option String := none
  message : Option String := none
  seed : Option (Option Int) := none
  query : Option String := none
  page : Option Int := none
  has_more : Option Bool := none
deriving DecidableEq

/-- A call to the sampler: the value it returns (or the Python error it
raises) together with the trace of upstream requests it issued. -/
structure FetchOut (Item : Type) where
  result : Except PyErr (Envelope Item)
  calls : List UpReq

instance [DecidableEq Item] : DecidableEq (Except PyErr (Envelope Item)) :=
  fun a b =>
    match a, b with
    | .error e1, .error e2 =>
      if h : e1 = e2 then .isTrue (by rw [h]) else .isFalse (by simp [h])
    | .ok v1, .ok v2 =>
      if h : v1 = v2 then .isTrue (by rw [h]) else .isFalse (by simp [h])
    | .error _, .ok _ => .isFalse (by simp)
    | .ok _, .error _ => .isFalse (by simp)

instance [DecidableEq Item] : DecidableEq (FetchOut Item) :=
  fun a b =>
    if h : a.result = b.result ∧ a.calls = b.calls then
      .isTrue (by cases a; cases b; simp_all)
    else .isFalse (by cases a; cases b; simp_all [and_comm])

/-- Error message of the HTTP-403 branch (`github_search.py` line 181). -/
def rateLimitMsg : String :=
  "GitHub API rate limit exceeded. Consider using a GitHub token."

/-- Error message of the HTTP-401 branch (`github_search.py` line 189). -/
def invalidTokenMsg : String :=
  "Invalid GitHub Token. Please check your token and try again."

/-- Message of the empty-result branch (`github_search.py` line 204). -/
def noResultsMsg : String := "No repositories found matching the criteria."

/-- Message of the exhausted-window branch (`github_search.py` line 157). -/
def noMoreMsg : String := "No more results."

/-- The fixed text prepended in the generic exception handler
(`github_search.py` line 233). -/
def fetchErrIntro : String := "Error fetching repositories: "

/-- Model of the external `requests` library: the `str` of the `HTTPError`
raised by `response.raise_for_status()` for a status code in `[400, 600)`.
Only its dependence on the status matters here. -/
def httpErrorText (st : Int) : String := toString st ++ " HTTP Error"

/-- Model of the external `requests` library: the `str` of the JSON decode
error raised by `response.json()` on an unparseable body (a subclass of
`RequestException`, hence caught by the same handler). -/
def jsonErrorText : String := "JSON decode error"

/-- The body carried by an HTTP outcome, if any. -/
def outcomeBody : HttpOutcome Item → Option (Body Item)
  | .transport _ => none
  | .response _ b => b

/-- The tail of `fetch_repositories` (lines 174-236): everything inside the
`try` block after the upstream response `o` for the issued request is in
hand.  Mirrors the code order: the explicit 403 and 401 checks, then
`raise_for_status` (which raises exactly for statuses in `[400, 600)`), then
`response.json()`, the empty-items early return, the per-page shuffle
(seeded by `seed + github_page` when a seed is present, by the process
global generator otherwise), and the final success envelope.  All
`requests.exceptions.RequestException`s are caught by the single handler at
line 230, producing the generic error envelope. -/
def handleOutcome (mt : Int → Gen) (g : Gen) (q : String)
    (per_page maxPages logicalPage githubPage : Int) (seed : Option Int)
    (o : HttpOutcome Item) : Envelope Item :=
  match o with
  | .transport m =>
    { success := false, repos := [], total_count := 0,
      error := some (fetchErrIntro ++ m) }
  | .response status body =>
    if status = 403 then
      { success := false, repos := [], total_count := 0,
        error := some rateLimitMsg }
    else if status = 401 then
      { success := false, repos := [], total_count := 0,
        error := some invalidTokenMsg }
    else if 400 ≤ status ∧ status < 600 then
      { success := false, repos := [], total_count := 0,
        error := some (fetchErrIntro ++ httpErrorText status) }
    else
      match body with
      | none =>
        { success := false, repos := [], total_count := 0,
          error := some (fetchErrIntro ++ jsonErrorText) }
      | some data =>
        if data.items.isEmpty then
          { success := true, repos := [], total_count := 0,
            message := some noResultsMsg, seed := some seed }
        else
          { success := true,
            repos := match seed with
              | some s => pyShuffle (mt (s + githubPage)) data.items
              | none => pyShuffle g data.items,
            total_count := data.total_count,
            query := some q, seed := some seed, page := some logicalPage,
            has_more := some (decide (logicalPage < maxPages ∧
              logicalPage * per_page < data.total_count)) }

/-- Issue the single upstream request of `fetch_repositories` (line 175) and
handle its outcome.  Every branch of the `try` block returns normally, so
the result is always an `ok` envelope, and the trace records exactly the one
request. -/
def doRequest (mt : Int → Gen) (g : Gen) (up : UpReq → HttpOutcome Item)
    (q sort_by : String) (tok : Option String)
    (per_page maxPages logicalPage githubPage : Int)
    (seed : Option Int) : FetchOut Item :=
  let req : UpReq :=
    { q := q, sort := sort_by, order := "desc", per_page := per_page,
      page := githubPage, auth := tok }
  ⟨.ok (handleOutcome mt g q per_page maxPages logicalPage githubPage seed
      (up req)), [req]⟩

/-- Shallow embedding of `fetch_repositories` (`github_search.py` lines
109-236).  `per_page = min(100, num_repos)`;
`max_pages = 1000 // per_page` (a Python `ZeroDivisionError` when
`per_page = 0`); with a seed, the page table `pagePerm` is shuffled from the
seed, a logical page beyond its length returns the empty success envelope
without any upstream call, and otherwise `pages[page - 1]` (Python indexing,
so a negative position counts from the back) is the underlying page; without
a seed the underlying page is the logical page itself. -/
def fetchRepositories (mt : Int → Gen) (g : Gen)
    (up : UpReq → HttpOutcome Item) (query : String) (num_repos : Int)
    (github_token : Option String) (sort_by : String) (page : Int)
    (seed : Option Int) : FetchOut Item :=
  let per_page := pyMin 100 num_repos
  match pyFloorDivE 1000 per_page with
  | .error e => ⟨.error e, []⟩
  | .ok max_pages =>
    match seed with
    | some s =>
      let pages := pagePerm (mt s) max_pages
      if (pages.length : Int) < page then
        ⟨.ok { success := true, repos := [], total_count := 0,
               message := some noMoreMsg, seed := some (some s) }, []⟩
      else
        match pyIndex pages (page - 1) with
        | .error e => ⟨.error e, []⟩
        | .ok github_page =>
          doRequest mt g up query sort_by github_token per_page max_pages
            page github_page (some s)
    | none =>
      doRequest mt g up query sort_by github_token per_page max_pages
        page page none

/-- Python's `str.strip()` (no argument): remove leading and trailing
whitespace. -/
def pyStrip (s : String) : String :=
  ⟨((s.data.dropWhile Char.isWhitespace).reverse.dropWhile
      Char.isWhitespace).reverse⟩

/-- Shallow embedding of `build_search_query` (`github_search.py` lines
54-106).  Python truthiness is made explicit: `if language:` is false for
`None` and for the empty string; a topic contributes a clause only when its
stripped form is non-empty, and the clause uses the stripped form;
`min_stars`/`max_stars` are compared with `is not None`, so `0` is a valid
bound. -/
def build_search_query (language : Option String)
    (topics : Option (List String)) (min_stars max_stars : Option Int)
    (since_date : Option String)
    (exclude_archived exclude_forks : Bool) : String :=
  let parts : List String := []
  let parts := parts ++ (match language with
    | some l => if l = "" then [] else ["language:" ++ l]
    | none => [])
  let parts := parts ++ (match topics with
    | some ts => ts.filterMap (fun t =>
        if pyStrip t = "" then none else some ("topic:" ++ pyStrip t))
    | none => [])
  let parts := parts ++ (match min_stars, max_stars with
    | some mn, some mx => ["stars:" ++ toString mn ++ ".." ++ toString mx]
    | some mn, none => ["stars:>=" ++ toString mn]
    | none, some mx => ["stars:<=" ++ toString mx]
    | none, none => [])
  let parts := parts ++ (match since_date with
    | some d => if d = "" then [] else ["pushed:>=" ++ d]
    | none => [])
  let parts := parts ++ (if exclude_archived then ["archived:false"] else [])
  let parts := parts ++ (if exclude_forks then ["fork:false"] else [])
  String.intercalate " " parts

theorem swapList_length (l : List α) (i j : Nat) :
    (swapList l i j).length = l.length := by
  unfold swapList
  split
  · simp
  · rfl

theorem count_set_add [DecidableEq α] (l : List α) (i : Nat) (a x : α)
    (h : i < l.length) :
    (l.set i a).count x + (if l.get ⟨i, h⟩ = x then 1 else 0)
      = l.count x + (if a = x then 1 else 0) := by
  induction l generalizing i with
  | nil => simp at h
  | cons c t ih =>
    cases i with
    | zero =>
      simp only [List.set, List.count_cons, List.get, beq_iff_eq]
      split_ifs <;> omega
    | succ k =>
      have hk : k < t.length := by simpa using h
      have hik := ih k hk
      simp only [List.set, List.count_cons, List.get, beq_iff_eq] at *
      split_ifs at * <;> omega

theorem swapList_perm [DecidableEq α] (l : List α) (i j : Nat)
    (hi : i < l.length) (hj : j < l.length) :
    (swapList l i j).Perm l := by
  rw [List.perm_iff_count]
  intro x
  unfold swapList
  rw [List.getElem?_eq_getElem hi, List.getElem?_eq_getElem hj]
  have hi' : i < (l.set i (l.get ⟨j, hj⟩)).length := by simpa using hi
  have hj' : j < (l.set i (l.get ⟨j, hj⟩)).length := by simpa using hj
  have h1 := count_set_add l i (l.get ⟨j, hj⟩) x hi
  have h2 := count_set_add (l.set i (l.get ⟨j, hj⟩)) j (l.get ⟨i, hi⟩) x hj'
  simp only [List.get_eq_getElem] at h1 h2 ⊢
  simp only [List.getElem_set, ite_self] at h2
  split_ifs at h1 h2 <;> omega

theorem shuffleGo_length (g : Gen) (c k : Nat) (l : List α) :
    (shuffleGo g c k l).length = l.length := by
  induction c generalizing k l with
  | zero => rfl
  | succ c ih => simp [shuffleGo, ih, swapList_length]

theorem pyShuffle_length (g : Gen) (l : List α) :
    (pyShuffle g l).length = l.length :=
  shuffleGo_length g (l.length - 1) 0 l

theorem shuffleGo_perm [DecidableEq α] (g : Gen) (hg : Gen.Valid g)
    (c k : Nat) (l : List α) (h : c < l.length) :
    (shuffleGo g c k l).Perm l := by
  induction c generalizing k l with
  | zero => exact .refl l
  | succ c ih =>
    have hjlt : g k (c+2) < c + 2 := hg k (c+2) (by omega)
    have hsw : (swapList l (c+1) (g k (c+2))).Perm l :=
      swapList_perm l (c+1) (g k (c+2)) h (by omega)
    have hlen : c < (swapList l (c+1) (g k (c+2))).length := by
      rw [swapList_length]; omega
    exact (ih (k+1) _ hlen).trans hsw

theorem pyShuffle_perm [DecidableEq α] (g : Gen) (hg : Gen.Valid g)
    (l : List α) : (pyShuffle g l).Perm l := by
  match l with
  | [] => exact .refl []
  | a :: t =>
    exact shuffleGo_perm g hg ((a :: t).length - 1) 0 (a :: t)
      (by simp)

theorem intRange1_length (m : Int) : (intRange1 m).length = m.toNat := by
  simp [intRange1]

theorem intRange1_nodup (m : Int) : (intRange1 m).Nodup := by
  refine List.Nodup.map ?_ (List.nodup_range' 1 m.toNat)
  intro a b hab
  exact Int.ofNat.inj hab

theorem intRange1_mem (m x : Int) : x ∈ intRange1 m ↔ 1 ≤ x ∧ x ≤ m := by
  simp only [intRange1, List.mem_map, List.mem_range'_1, Int.ofNat_eq_coe]
  constructor
  · rintro ⟨a, ⟨h1, h2⟩, rfl⟩
    constructor <;> omega
  · intro hx
    exact ⟨x.toNat, ⟨by omega, by omega⟩, by omega⟩

theorem pagePerm_count (g : Gen) (hg : Gen.Valid g) (m x : Int)
    (h1 : 1 ≤ x) (h2 : x ≤ m) : (pagePerm g m).count x = 1 := by
  rw [pagePerm, (pyShuffle_perm g hg (intRange1 m)).count_eq]
  exact List.count_eq_one_of_mem (intRange1_nodup m)
    ((intRange1_mem m x).2 ⟨h1, h2⟩)

theorem pagePerm_length (g : Gen) (m : Int) :
    (pagePerm g m).length = m.toNat := by
  rw [pagePerm, pyShuffle_length, intRange1_length]

theorem pyMin_eq_right (n : Int) (h : n ≤ 100) : pyMin 100 n = n := by
  unfold pyMin
  split_ifs <;> omega

theorem pyMin_eq_left (n : Int) (h : 100 ≤ n) : pyMin 100 n = 100 := by
  unfold pyMin
  split_ifs
  omega

theorem pyMin_ne_zero (n : Int) (h : n ≠ 0) : pyMin 100 n ≠ 0 := by
  unfold pyMin
  split_ifs <;> omega

theorem fdiv_1000_ge_ten (n : Int) (h1 : 1 ≤ n) (h2 : n ≤ 100) :
    10 ≤ Int.fdiv 1000 n := by
  rw [Int.fdiv_eq_ediv _ (by omega), Int.le_ediv_iff_mul_le (by omega)]
  omega

/-- The request `fetch_repositories` issues, as a function of the query,
sort key, token, `per_page` and the underlying GitHub page. -/
def mkReq (q sb : String) (tok : Option String) (per gp : Int) : UpReq :=
  { q := q, sort := sb, order := "desc", per_page := per, page := gp,
    auth := tok }

theorem doRequest_eq (mt : Int → Gen) (g : Gen)
    (up : UpReq → HttpOutcome Item) (q sb : String) (tok : Option String)
    (per maxP lp gp : Int) (seed : Option Int) :
    doRequest mt g up q sb tok per maxP lp gp seed
      = ⟨.ok (handleOutcome mt g q per maxP lp gp seed
          (up (mkReq q sb tok per gp))), [mkReq q sb tok per gp]⟩ := rfl

/-- Inversion for a successful envelope that carries items: it can only come
out of the full-success branch, after exactly one upstream request for some
underlying page `gp` (which is the logical page itself when no seed was
given). -/
theorem fetch_ok_inv (mt : Int → Gen) (g : Gen)
    (up : UpReq → HttpOutcome Item) (q : String) (n : Int)
    (tok : Option String) (sb : String) (page : Int) (seed : Option Int)
    (env : Envelope Item)
    (hok : (fetchRepositories mt g up q n tok sb page seed).result = .ok env)
    (hne : env.repos ≠ []) :
    ∃ gp : Int,
      (fetchRepositories mt g up q n tok sb page seed).calls
        = [mkReq q sb tok (pyMin 100 n) gp] ∧
      env = handleOutcome mt g q (pyMin 100 n) (Int.fdiv 1000 (pyMin 100 n))
        page gp seed (up (mkReq q sb tok (pyMin 100 n) gp)) ∧
      (seed = none → gp = page) := by
  by_cases hz : pyMin 100 n = 0
  · simp [fetchRepositories, pyFloorDivE, hz] at hok
  · cases seed with
    | none =>
      refine ⟨page, ?_, ?_, fun _ => rfl⟩
      · simp [fetchRepositories, pyFloorDivE, hz, doRequest_eq]
      · simp [fetchRepositories, pyFloorDivE, hz, doRequest_eq] at hok
        exact hok.symm
    | some s =>
      by_cases hlt :
          ((pagePerm (mt s) (Int.fdiv 1000 (pyMin 100 n))).length : Int)
            < page
      · simp [fetchRepositories, pyFloorDivE, hz, if_pos hlt] at hok
        rw [← hok] at hne
        simp at hne
      · cases hidx : pyIndex (pagePerm (mt s) (Int.fdiv 1000 (pyMin 100 n)))
            (page - 1) with
        | error e =>
          simp [fetchRepositories, pyFloorDivE, hz, if_neg hlt, hidx] at hok
        | ok gp =>
          refine ⟨gp, ?_, ?_, fun h => by cases h⟩
          · simp [fetchRepositories, pyFloorDivE, hz, if_neg hlt, hidx,
              doRequest_eq]
          · simp [fetchRepositories, pyFloorDivE, hz, if_neg hlt, hidx,
              doRequest_eq] at hok
            exact hok.symm

/-- Inversion for the request trace: whenever exactly one request `r` was
issued, `r` is the canonical request for some underlying page and the result
is the handled outcome of `up r`. -/
theorem fetch_calls_inv (mt : Int → Gen) (g : Gen)
    (up : UpReq → HttpOutcome Item) (q : String) (n : Int)
    (tok : Option String) (sb : String) (page : Int) (seed : Option Int)
    (r : UpReq)
    (hc : (fetchRepositories mt g up q n tok sb page seed).calls = [r]) :
    r = mkReq q sb tok (pyMin 100 n) r.page ∧
    (fetchRepositories mt g up q n tok sb page seed).result
      = .ok (handleOutcome mt g q (pyMin 100 n)
          (Int.fdiv 1000 (pyMin 100 n)) page r.page seed (up r)) := by
  by_cases hz : pyMin 100 n = 0
  · simp [fetchRepositories, pyFloorDivE, hz] at hc
  · cases seed with
    | none =>
      simp [fetchRepositories, pyFloorDivE, hz, doRequest_eq] at hc ⊢
      rw [← hc]
      exact ⟨rfl, rfl⟩
    | some s =>
      by_cases hlt :
          ((pagePerm (mt s) (Int.fdiv 1000 (pyMin 100 n))).length : Int)
            < page
      · simp [fetchRepositories, pyFloorDivE, hz, if_pos hlt] at hc
      · cases hidx : pyIndex (pagePerm (mt s) (Int.fdiv 1000 (pyMin 100 n)))
            (page - 1) with
        | error e =>
          simp [fetchRepositories, pyFloorDivE, hz, if_neg hlt, hidx] at hc
        | ok gp =>
          simp [fetchRepositories, pyFloorDivE, hz, if_neg hlt, hidx,
            doRequest_eq] at hc ⊢
          rw [← hc]
          exact ⟨rfl, rfl⟩

/-- Inversion for `handleOutcome` when the produced envelope carries items:
only the final success branch produces a non-empty `repos`, so the outcome
was a parseable response with non-empty `items`, outside the error statuses,
and the envelope fields are determined. -/
theorem handleOutcome_items_inv (mt : Int → Gen) (g : Gen) (q : String)
    (per maxP lp gp : Int) (seed : Option Int) (o : HttpOutcome Item)
    (env : Envelope Item)
    (he : handleOutcome mt g q per maxP lp gp seed o = env)
    (hne : env.repos ≠ []) :
    env.success = true ∧
    env.total_count = ((outcomeBody o).getD ⟨[], 0⟩).total_count ∧
    (∀ s, seed = some s →
      env.repos = pyShuffle (mt (s + gp)) ((outcomeBody o).getD ⟨[], 0⟩).items) ∧
    (seed = none →
      env.repos = pyShuffle g ((outcomeBody o).getD ⟨[], 0⟩).items) ∧
    env.has_more = some (decide (lp < maxP ∧ lp * per < env.total_count)) := by
  subst he
  cases o with
  | transport m => simp [handleOutcome] at hne
  | response st body =>
    by_cases h403 : st = 403
    · simp [handleOutcome, h403] at hne
    · by_cases h401 : st = 401
      · simp [handleOutcome, h403, h401] at hne
      · by_cases herr : 400 ≤ st ∧ st < 600
        · simp [handleOutcome, h403, h401, herr] at hne
        · cases body with
          | none => simp [handleOutcome, h403, h401, herr] at hne
          | some data =>
            by_cases hemp : data.items.isEmpty
            · simp [handleOutcome, h403, h401, herr, hemp] at hne
            · cases seed with
              | some s =>
                simp [handleOutcome, h403, h401, herr, hemp, outcomeBody]
              | none =>
                simp [handleOutcome, h403, h401, herr, hemp, outcomeBody]

/-- `fetch_repositories` issues at most one upstream request per call. -/
theorem fetch_calls_len_le (mt : Int → Gen) (g : Gen)
    (up : UpReq → HttpOutcome Item) (q : String) (n : Int)
    (tok : Option String) (sb : String) (page : Int) (seed : Option Int) :
    (fetchRepositories mt g up q n tok sb page seed).calls.length ≤ 1 := by
  by_cases hz : pyMin 100 n = 0
  · simp [fetchRepositories, pyFloorDivE, hz]
  · cases seed with
    | none => simp [fetchRepositories, pyFloorDivE, hz, doRequest_eq]
    | some s =>
      by_cases hlt :
          ((pagePerm (mt s) (Int.fdiv 1000 (pyMin 100 n))).length : Int)
            < page
      · simp [fetchRepositories, pyFloorDivE, hz, if_pos hlt]
      · cases hidx : pyIndex (pagePerm (mt s) (Int.fdiv 1000 (pyMin 100 n)))
            (page - 1) with
        | error e =>
          simp [fetchRepositories, pyFloorDivE, hz, if_neg hlt, hidx]
        | ok gp =>
          simp [fetchRepositories, pyFloorDivE, hz, if_neg hlt, hidx,
            doRequest_eq]

theorem pyIndex_ok_nonneg (l : List α) (i : Int) (h1 : 0 ≤ i)
    (h2 : i.toNat < l.length) :
    pyIndex l i = .ok (l.get ⟨i.toNat, h2⟩) := by
  unfold pyIndex
  rw [dif_pos ⟨h1, h2⟩]

theorem pyIndex_ok_neg (l : List α) (i : Int) (h1 : i < 0)
    (h2 : 0 ≤ i + l.length) (h3 : (i + l.length).toNat < l.length) :
    pyIndex l i = .ok (l.get ⟨(i + l.length).toNat, h3⟩) := by
  unfold pyIndex
  rw [dif_neg (by omega), dif_pos ⟨h2, h3⟩]

/-- A concrete generator satisfying the `_randbelow` contract: every draw is
0.  Used to instantiate witnesses on concrete inputs. -/
def zeroGen : Gen := fun _ _ => 0

theorem zeroGen_valid : Gen.Valid zeroGen := fun _ _ h => h

/-- A second, different concrete state for the process-global generator. -/
def oneGen : Gen := fun _ _ => 1

/-- A concrete seed-to-generator map standing in for `random.Random`. -/
def zeroMT : Int → Gen := fun _ => zeroGen

theorem handleOutcome_seeded_ignores_global (mt : Int → Gen) (g1 g2 : Gen)
    (q : String) (per maxP lp gp s : Int) (o : HttpOutcome Item) :
    handleOutcome mt g1 q per maxP lp gp (some s) o
      = handleOutcome mt g2 q per maxP lp gp (some s) o := by
  cases o with
  | transport m => rfl
  | response st body =>
    simp only [handleOutcome]

/-- C1: for every page size `p` in `[1,100]` the sampler's
`max_pages = 1000 // min(100, p)` (lines 140-142) equals `floor(1000/p)`,
and for every seeded generator stream obeying the `_randbelow` contract the
shuffled page table `pagePerm` (lines 147-149) is a bijection on
`[1, max_logical_pages]`: it has exactly `max_logical_pages` entries and
each underlying page in that range occurs in it exactly once, so each is
assigned to exactly one logical page. -/
theorem page_permutation_is_bijection (p : Int) (_hp1 : 1 ≤ p)
    (hp2 : p ≤ 100) (g : Gen) (hg : Gen.Valid g) :
    Int.fdiv 1000 (pyMin 100 p) = Int.fdiv 1000 p ∧
    (pagePerm g (Int.fdiv 1000 p)).length = (Int.fdiv 1000 p).toNat ∧
    (∀ m : Int, 1 ≤ m → m ≤ Int.fdiv 1000 p →
      (pagePerm g (Int.fdiv 1000 p)).count m = 1) := by
  refine ⟨by rw [pyMin_eq_right p hp2], pagePerm_length g _, ?_⟩
  intro m h1 h2
  exact pagePerm_count g hg _ m h1 h2

theorem page_permutation_is_bijection_witness :
    (pagePerm zeroGen (Int.fdiv 1000 100)).count 7 = 1 :=
  (page_permutation_is_bijection 100 (by decide) (by decide) zeroGen
    zeroGen_valid).2.2 7 (by decide) (by decide)

/-- C2: with a seed present, the sampler's output is a function of its
explicit arguments alone — in particular it does not depend on the state of
the process-global generator, so two calls with identical arguments (page
size in `[1,100]`, logical page ≥ 1, same seed, same collaborator) choose
the identical underlying page and return the identical envelope, items in
the identical order. -/
theorem fetch_seeded_deterministic (mt : Int → Gen) (g1 g2 : Gen)
    (up : UpReq → HttpOutcome Item) (q : String) (n : Int)
    (tok : Option String) (sb : String) (page s : Int)
    (_hn1 : 1 ≤ n) (_hn2 : n ≤ 100) (_hp : 1 ≤ page) :
    fetchRepositories mt g1 up q n tok sb page (some s)
      = fetchRepositories mt g2 up q n tok sb page (some s) := by
  simp only [fetchRepositories]
  cases hE : pyFloorDivE 1000 (pyMin 100 n) with
  | error e => rfl
  | ok maxP =>
    split
    · rfl
    · cases hI : pyIndex (pagePerm (mt s) maxP) (page - 1) with
      | error e => rfl
      | ok gp =>
        simp only [doRequest_eq,
          handleOutcome_seeded_ignores_global mt g1 g2]

/-- Upstream stub for the C2 witness. -/
def c2Up : UpReq → HttpOutcome Nat :=
  fun _ => .response 200 (some ⟨[1, 2, 3], 9⟩)

theorem fetch_seeded_deterministic_witness :
    fetchRepositories zeroMT zeroGen c2Up "q" 5 none "stars" 1 (some 42)
      = fetchRepositories zeroMT oneGen c2Up "q" 5 none "stars" 1 (some 42) :=
  fetch_seeded_deterministic zeroMT zeroGen oneGen c2Up "q" 5 none "stars"
    1 42 (by decide) (by decide) (by decide)

/-- C8: with seed absent, the single upstream request the sampler issues
carries the logical page itself as the provider page — no permutation is
applied (lines 162-164).  (With `num_repos = 0` no request is issued at all
because of the `ZeroDivisionError`, hence the hypothesis.) -/
theorem fetch_no_seed_uses_logical_page (mt : Int → Gen) (g : Gen)
    (up : UpReq → HttpOutcome Item) (q : String) (n : Int)
    (tok : Option String) (sb : String) (page : Int) (hn : n ≠ 0) :
    (fetchRepositories mt g up q n tok sb page none).calls
      = [mkReq q sb tok (pyMin 100 n) page] := by
  have hz := pyMin_ne_zero n hn
  simp [fetchRepositories, pyFloorDivE, hz, doRequest_eq]

/-- Upstream stub for the C8 witness. -/
def c8Up : UpReq → HttpOutcome Nat := fun _ => .transport "timeout"

theorem fetch_no_seed_uses_logical_page_witness :
    (fetchRepositories zeroMT zeroGen c8Up "q" 10 none "stars" 3 none).calls
      = [mkReq "q" "stars" none (pyMin 100 10) 3] :=
  fetch_no_seed_uses_logical_page zeroMT zeroGen c8Up "q" 10 none "stars" 3
    (by decide)

/-- C10: with `num_repos = 0`, `per_page = min(100, 0) = 0` and the
computation `max_results // per_page` (line 142) raises an unguarded
`ZeroDivisionError` before any upstream request is issued: for every
generator state, collaborator and remaining arguments the embedded sampler
produces the raised error and an empty request trace, never an envelope. -/
theorem fetch_zero_num_repos_division_error (mt : Int → Gen) (g : Gen)
    (up : UpReq → HttpOutcome Item) (q : String) (tok : Option String)
    (sb : String) (page : Int) (seed : Option Int) :
    fetchRepositories mt g up q 0 tok sb page seed
      = ⟨.error .zeroDivision, []⟩ := rfl

/-- C3: in every successful envelope returned with items, `has_more` is
true iff the logical page is strictly below `max_logical_pages =
floor(1000/page_size)` and `logical_page * page_size` is strictly below the
upstream-reported total count (the envelope's `total_count` equals it in
this branch), and `has_more` is false otherwise (line 227; for page sizes in
`[1,100]` the code's `per_page = min(100, num_repos)` is the page size). -/
theorem fetch_has_more_iff (mt : Int → Gen) (g : Gen)
    (up : UpReq → HttpOutcome Item) (q : String) (n : Int)
    (tok : Option String) (sb : String) (page : Int) (seed : Option Int)
    (env : Envelope Item) (_hn1 : 1 ≤ n) (hn2 : n ≤ 100)
    (hok : (fetchRepositories mt g up q n tok sb page seed).result = .ok env)
    (hne : env.repos ≠ []) :
    (env.has_more = some true ↔
      (page < Int.fdiv 1000 n ∧ page * n < env.total_count)) ∧
    (¬(page < Int.fdiv 1000 n ∧ page * n < env.total_count) →
      env.has_more = some false) := by
  obtain ⟨gp, _, henv, _⟩ :=
    fetch_ok_inv mt g up q n tok sb page seed env hok hne
  obtain ⟨_, _, _, _, hhm⟩ :=
    handleOutcome_items_inv mt g q (pyMin 100 n)
      (Int.fdiv 1000 (pyMin 100 n)) page gp seed _ env henv.symm hne
  rw [pyMin_eq_right n hn2] at hhm
  refine ⟨?_, ?_⟩
  · rw [hhm]
    simp [decide_eq_true_eq]
  · intro h
    rw [hhm, decide_eq_false h]

/-- Upstream stub for the C3 witness. -/
def c3Up : UpReq → HttpOutcome Nat :=
  fun _ => .response 200 (some ⟨[5, 6, 7], 50⟩)

/-- The envelope the sampler returns for the C3 witness call. -/
def c3Env : Envelope Nat :=
  ⟨true, [6, 7, 5], 50, none, none, some none, some "q", some 1, some true⟩

theorem fetch_has_more_iff_witness : c3Env.has_more = some true :=
  (fetch_has_more_iff zeroMT zeroGen c3Up "q" 10 none "stars" 1 none c3Env
    (by decide) (by decide) (by decide) (by decide)).1.mpr (by decide)

/-- Upstream stub for the C4 counterexample and witness. -/
def c4Up : UpReq → HttpOutcome Nat := fun _ => .response 200 (some ⟨[1], 1⟩)

/-- C4 counterexample: at `num_repos = 100` (so `max_logical_pages = 10`),
`logical_page = 11` and seed 5, the sampler does return the successful empty
envelope — but that dict (lines 152-159) carries NO `has_more` key at all
(the field is `none` in the model), so the claim's "has_more is false" is
not true of the returned envelope itself. -/
theorem fetch_window_exhausted_cex :
    (fetchRepositories zeroMT zeroGen c4Up "q" 100 none "stars" 11
        (some 5)).result
      = .ok ⟨true, [], 0, none, some noMoreMsg, some (some 5), none, none,
          none⟩ ∧
    (⟨true, [], 0, none, some noMoreMsg, some (some 5), none, none,
        none⟩ : Envelope Nat).has_more ≠ some false :=
  ⟨by decide, by decide⟩

/-- C4 (amended): for every seed and every logical page strictly greater
than `max_logical_pages`, the sampler returns success=true, an empty item
list, `total_count = 0`, the "No more results." message and the seed, with
no `has_more` key in the envelope (callers such as `app.py` read the
missing key as false via `result.get`), and it never invokes the upstream
collaborator on that call (empty request trace). -/
theorem fetch_window_exhausted (mt : Int → Gen) (g : Gen)
    (up : UpReq → HttpOutcome Item) (q : String) (n : Int)
    (tok : Option String) (sb : String) (page s : Int)
    (hn1 : 1 ≤ n) (hn2 : n ≤ 100) (hpg : Int.fdiv 1000 n < page) :
    fetchRepositories mt g up q n tok sb page (some s)
      = ⟨.ok ⟨true, [], 0, none, some noMoreMsg, some (some s), none, none,
          none⟩, []⟩ := by
  have hz : pyMin 100 n ≠ 0 := pyMin_ne_zero n (by omega)
  have hmin : pyMin 100 n = n := pyMin_eq_right n hn2
  have h10 : 10 ≤ Int.fdiv 1000 n := fdiv_1000_ge_ten n hn1 hn2
  have hlt : ((pagePerm (mt s)
      (Int.fdiv 1000 (pyMin 100 n))).length : Int) < page := by
    rw [pagePerm_length, hmin]
    omega
  simp [fetchRepositories, pyFloorDivE, hz, hlt]

theorem fetch_window_exhausted_witness :
    fetchRepositories zeroMT zeroGen c4Up "q" 100 none "stars" 11 (some 5)
      = ⟨.ok ⟨true, [], 0, none, some noMoreMsg, some (some 5), none, none,
          none⟩, []⟩ :=
  fetch_window_exhausted zeroMT zeroGen c4Up "q" 100 none "stars" 11 5
    (by decide) (by decide) (by decide)

/-- C7: whenever a call with a seed returns a successful envelope with
items, the item list is the upstream item list shuffled by the generator
constructed from exactly `seed + underlying_page` (lines 212-216, where the
underlying page is the one in the single issued request); whenever a call
without a seed returns items, they are shuffled by the process-global
generator (line 218). -/
theorem fetch_item_shuffle_seed_derivation (mt : Int → Gen) (g : Gen)
    (up : UpReq → HttpOutcome Item) (q : String) (n : Int)
    (tok : Option String) (sb : String) (page : Int) :
    (∀ (s : Int) (env : Envelope Item),
      (fetchRepositories mt g up q n tok sb page (some s)).result
        = .ok env →
      env.repos ≠ [] →
      ∀ r ∈ (fetchRepositories mt g up q n tok sb page (some s)).calls,
        env.repos = pyShuffle (mt (s + r.page))
          ((outcomeBody (up r)).getD ⟨[], 0⟩).items) ∧
    (∀ env : Envelope Item,
      (fetchRepositories mt g up q n tok sb page none).result = .ok env →
      env.repos ≠ [] →
      ∀ r ∈ (fetchRepositories mt g up q n tok sb page none).calls,
        env.repos = pyShuffle g
          ((outcomeBody (up r)).getD ⟨[], 0⟩).items) := by
  constructor
  · intro s env hok hne r hr
    obtain ⟨gp, hcalls, henv, _⟩ :=
      fetch_ok_inv mt g up q n tok sb page (some s) env hok hne
    rw [hcalls] at hr
    simp only [List.mem_singleton] at hr
    subst hr
    obtain ⟨_, _, hsome, _, _⟩ :=
      handleOutcome_items_inv mt g q (pyMin 100 n)
        (Int.fdiv 1000 (pyMin 100 n)) page gp (some s) _ env henv.symm hne
    exact hsome s rfl
  · intro env hok hne r hr
    obtain ⟨gp, hcalls, henv, hnone⟩ :=
      fetch_ok_inv mt g up q n tok sb page none env hok hne
    rw [hcalls] at hr
    simp only [List.mem_singleton] at hr
    subst hr
    obtain ⟨_, _, _, hglob, _⟩ :=
      handleOutcome_items_inv mt g q (pyMin 100 n)
        (Int.fdiv 1000 (pyMin 100 n)) page gp none _ env henv.symm hne
    exact hglob rfl

/-- Upstream stub for the C7 witness. -/
def c7Up : UpReq → HttpOutcome Nat :=
  fun _ => .response 200 (some ⟨[5, 6, 7], 50⟩)

/-- The envelope the sampler returns for the C7 witness call. -/
def c7Env : Envelope Nat :=
  ⟨true, [6, 7, 5], 50, none, none, some (some 42), some "q", some 1,
    some false⟩

theorem fetch_item_shuffle_seed_derivation_witness :
    c7Env.repos = pyShuffle (zeroMT (42 + (mkReq "q" "stars" none 100 2).page))
      ((outcomeBody (c7Up (mkReq "q" "stars" none 100 2))).getD
        ⟨[], 0⟩).items :=
  (fetch_item_shuffle_seed_derivation zeroMT zeroGen c7Up "q" 100 none
    "stars" 1).1 42 c7Env (by decide) (by decide)
    (mkReq "q" "stars" none 100 2) (by decide)

/-- Upstream stub for the C5 counterexample and witness. -/
def c5Up : UpReq → HttpOutcome Nat :=
  fun _ => .response 200 (some ⟨[1, 2], 42⟩)

/-- C5 counterexample: with `num_repos = 150` (page size above 100), seed 1
and page 1, the sampler does not return a validation failure before
contacting upstream: it clamps `per_page` to `min(100, 150) = 100`, issues
one upstream request, and returns a success envelope. -/
theorem fetch_no_page_validation_cex :
    (fetchRepositories zeroMT zeroGen c5Up "q" 150 none "stars" 1
        (some 1)).calls.length = 1 ∧
    (fetchRepositories zeroMT zeroGen c5Up "q" 150 none "stars" 1
        (some 1)).result
      = .ok ⟨true, [2, 1], 42, none, none, some (some 1), some "q", some 1,
          some false⟩ :=
  ⟨by decide, by decide⟩

/-- C5 (amended): the sampler performs no page-bounds validation at all.  A
page size above 100 is silently clamped to 100 and the call proceeds to
upstream (one request, with `per_page = 100`); a logical page below 1 also
does not produce a validation failure — with a seed present,
`logical_page = 0` indexes the shuffled page table from the back (Python
negative indexing) and still issues one upstream request.  (`num_repos = 0`
raises `ZeroDivisionError` rather than returning a failure envelope; see
the C10 theorem.) -/
theorem fetch_no_page_validation (mt : Int → Gen) (g : Gen)
    (up : UpReq → HttpOutcome Item) (q : String) (tok : Option String)
    (sb : String) (n page s : Int) :
    (101 ≤ n → 1 ≤ page → page ≤ 10 →
      ((fetchRepositories mt g up q n tok sb page
          (some s)).calls.length = 1 ∧
       ∀ r ∈ (fetchRepositories mt g up q n tok sb page (some s)).calls,
         r.per_page = 100)) ∧
    (1 ≤ n → n ≤ 100 →
      (fetchRepositories mt g up q n tok sb 0 (some s)).calls.length
        = 1) := by
  constructor
  · intro hn hp1 hp2
    have hper : pyMin 100 n = 100 := pyMin_eq_left n (by omega)
    have hz : pyMin 100 n ≠ 0 := by rw [hper]; decide
    have hlen : (pagePerm (mt s)
        (Int.fdiv 1000 (pyMin 100 n))).length = 10 := by
      rw [pagePerm_length, hper]
      decide
    have hnlt : ¬((pagePerm (mt s)
        (Int.fdiv 1000 (pyMin 100 n))).length : Int) < page := by
      rw [hlen]; push_cast; omega
    have htn : (page - 1).toNat < (pagePerm (mt s)
        (Int.fdiv 1000 (pyMin 100 n))).length := by
      rw [hlen]; omega
    have hidx := pyIndex_ok_nonneg (pagePerm (mt s)
        (Int.fdiv 1000 (pyMin 100 n))) (page - 1) (by omega) htn
    refine ⟨?_, ?_⟩
    · simp [fetchRepositories, pyFloorDivE, hz, hnlt, hidx, doRequest_eq]
    · intro r hr
      simp [fetchRepositories, pyFloorDivE, hz, hnlt, hidx, doRequest_eq,
        mkReq] at hr
      subst hr
      exact hper
  · intro hn1 hn2
    have hmin : pyMin 100 n = n := pyMin_eq_right n hn2
    have hz : pyMin 100 n ≠ 0 := pyMin_ne_zero n (by omega)
    have h10 : 10 ≤ Int.fdiv 1000 n := fdiv_1000_ge_ten n hn1 hn2
    have hlen : (pagePerm (mt s) (Int.fdiv 1000 (pyMin 100 n))).length
        = (Int.fdiv 1000 n).toNat := by
      rw [pagePerm_length, hmin]
    have hnlt : ¬((pagePerm (mt s)
        (Int.fdiv 1000 (pyMin 100 n))).length : Int) < 0 := by
      omega
    have h2 : 0 ≤ (-1 : Int) + (pagePerm (mt s)
        (Int.fdiv 1000 (pyMin 100 n))).length := by
      rw [hlen]; omega
    have h3 : ((-1 : Int) + (pagePerm (mt s)
        (Int.fdiv 1000 (pyMin 100 n))).length).toNat
        < (pagePerm (mt s) (Int.fdiv 1000 (pyMin 100 n))).length := by
      rw [hlen]; omega
    have hidx := pyIndex_ok_neg (pagePerm (mt s)
        (Int.fdiv 1000 (pyMin 100 n))) (-1) (by decide) h2 h3
    simp [fetchRepositories, pyFloorDivE, hz, hnlt, hidx, doRequest_eq]

theorem fetch_no_page_validation_witness :
    (fetchRepositories zeroMT zeroGen c5Up "q" 150 none "stars" 1
        (some 0)).calls.length = 1 :=
  ((fetch_no_page_validation zeroMT zeroGen c5Up "q" none "stars" 150 1
      0).1 (by decide) (by decide) (by decide)).1

/-- Upstream stub for the C6 counterexample: a 304 response carrying a
parseable body. -/
def c6Up : UpReq → HttpOutcome Nat := fun _ => .response 304 (some ⟨[9], 1⟩)

/-- C6 counterexample: a non-2xx status outside `[400, 600)` is not mapped
to any error envelope — `raise_for_status` raises only for 4xx/5xx — so a
304 response with a parseable body is processed as a SUCCESS envelope,
refuting "any other non-2xx status maps to a distinct UpstreamOther
success=false envelope". -/
theorem fetch_error_taxonomy_cex :
    (fetchRepositories zeroMT zeroGen c6Up "q" 10 none "stars" 1
        none).result
      = .ok ⟨true, [9], 1, none, none, some none, some "q", some 1,
          some false⟩ := by decide

/-- C6 (amended): the sampler issues at most one upstream request per call
(nothing is retried), and whenever its single request `r` was issued: HTTP
403 maps to the distinct rate-limit envelope — empty repos, total_count 0,
message mentioning rate limiting; HTTP 401 to the distinct invalid-token
envelope; a transport failure (network/timeout) to the generic
"Error fetching repositories: ..." envelope carrying the exception text;
and any other status in `[400, 600)` to that generic envelope carrying the
HTTP-error text.  (Statuses outside `[400, 600)` are not mapped to an error
envelope by this path; see the counterexample.) -/
theorem fetch_error_taxonomy (mt : Int → Gen) (g : Gen)
    (up : UpReq → HttpOutcome Item) (q : String) (n : Int)
    (tok : Option String) (sb : String) (page : Int) (seed : Option Int) :
    (fetchRepositories mt g up q n tok sb page seed).calls.length ≤ 1 ∧
    (∀ r, (fetchRepositories mt g up q n tok sb page seed).calls = [r] →
      (∀ m, up r = .transport m →
        (fetchRepositories mt g up q n tok sb page seed).result
          = .ok ⟨false, [], 0, some (fetchErrIntro ++ m), none, none, none,
              none, none⟩) ∧
      (∀ b, up r = .response 403 b →
        (fetchRepositories mt g up q n tok sb page seed).result
          = .ok ⟨false, [], 0, some rateLimitMsg, none, none, none, none,
              none⟩) ∧
      (rateLimitMsg = "GitHub API " ++ "rate limit" ++
        " exceeded. Consider using a GitHub token.") ∧
      (∀ b, up r = .response 401 b →
        (fetchRepositories mt g up q n tok sb page seed).result
          = .ok ⟨false, [], 0, some invalidTokenMsg, none, none, none,
              none, none⟩) ∧
      (∀ st b, up r = .response st b → 400 ≤ st → st < 600 → st ≠ 403 →
        st ≠ 401 →
        (fetchRepositories mt g up q n tok sb page seed).result
          = .ok ⟨false, [], 0, some (fetchErrIntro ++ httpErrorText st),
              none, none, none, none, none⟩)) := by
  refine ⟨fetch_calls_len_le mt g up q n tok sb page seed, ?_⟩
  intro r hc
  obtain ⟨_, hres⟩ := fetch_calls_inv mt g up q n tok sb page seed r hc
  refine ⟨?_, ?_, by decide, ?_, ?_⟩
  · intro m hm
    rw [hres, hm]
    rfl
  · intro b hb
    rw [hres, hb]
    norm_num [handleOutcome]
  · intro b hb
    rw [hres, hb]
    norm_num [handleOutcome]
  · intro st b hst h1 h2 h3 h4
    rw [hres, hst]
    simp only [handleOutcome]
    rw [if_neg h3, if_neg h4, if_pos ⟨h1, h2⟩]

/-- Upstream stub for the C6 witness: a transport failure. -/
def c6WUp : UpReq → HttpOutcome Nat := fun _ => .transport "timed out"

theorem fetch_error_taxonomy_witness :
    (fetchRepositories zeroMT zeroGen c6WUp "q" 10 none "stars" 1
        none).result
      = .ok ⟨false, [], 0, some (fetchErrIntro ++ "timed out"), none, none,
          none, none, none⟩ :=
  ((fetch_error_taxonomy zeroMT zeroGen c6WUp "q" 10 none "stars" 1
      none).2 (mkReq "q" "stars" none 10 1) (by decide)).1 "timed out" rfl

/-- Language clause family of the query grammar: one clause when the
language is present and non-empty. -/
def languageClauses (language : Option String) : List String :=
  match language with
  | some l => if l = "" then [] else ["language:" ++ l]
  | none => []

/-- Topic clause family as the amended C9 describes it: one clause per
non-blank topic, trimmed, in input order; whitespace-only topics emit no
clause. -/
def topicClauses (topics : Option (List String)) : List String :=
  (topics.getD []).filterMap (fun t =>
    if pyStrip t = "" then none else some ("topic:" ++ pyStrip t))

/-- Star clause family: `min..max` when both bounds are given, `>=min` when
only min, `<=max` when only max, omitted when neither. -/
def starsClauses (mn mx : Option Int) : List String :=
  match mn, mx with
  | some a, some b => ["stars:" ++ toString a ++ ".." ++ toString b]
  | some a, none => ["stars:>=" ++ toString a]
  | none, some b => ["stars:<=" ++ toString b]
  | none, none => []

/-- Pushed-since clause family. -/
def pushedClauses (sd : Option String) : List String :=
  match sd with
  | some d => if d = "" then [] else ["pushed:>=" ++ d]
  | none => []

/-- Archived-exclusion clause family. -/
def archivedClauses (ea : Bool) : List String :=
  if ea then ["archived:false"] else []

/-- Fork-exclusion clause family. -/
def forkClauses (ef : Bool) : List String :=
  if ef then ["fork:false"] else []

/-- The query compiler exactly as claim C9 reads it: one clause per topic
in input order, with no trimming and no skipping of blank topics (the other
clause families as in the claim).  Used only to exhibit where the claim and
the code diverge. -/
def claimC9Compile (language : Option String)
    (topics : Option (List String)) (mn mx : Option Int)
    (sd : Option String) (ea ef : Bool) : String :=
  String.intercalate " " (languageClauses language ++
    (topics.getD []).map (fun t => "topic:" ++ t) ++
    starsClauses mn mx ++ pushedClauses sd ++ archivedClauses ea ++
    forkClauses ef)

/-- C9 counterexample: a whitespace-only topic emits no clause — the code
strips each topic and skips blanks (lines 84-87) — while the claim's "one
clause per topic in input order" would emit one: at `topics = [" "]` the
code compiles to the empty string, the claim's reading to "topic: ". -/
theorem build_search_query_topic_cex :
    build_search_query none (some [" "]) none none none false false = "" ∧
    claimC9Compile none (some [" "]) none none none false false
      = "topic: " ∧
    build_search_query none (some [" "]) none none none false false
      ≠ claimC9Compile none (some [" "]) none none none false false :=
  ⟨by decide, by decide, by decide⟩

/-- C9 (amended): the compiler emits one clause per populated field,
space-joined, in the fixed order language, topics (one clause per non-blank
topic, trimmed, in input order; whitespace-only topics emit no clause),
stars (`min..max` when both bounds are given, `>=min` when only min,
`<=max` when only max, omitted when neither), pushed-since,
archived-exclusion, fork-exclusion; `{language: python, min_stars: 100}`
compiles to "language:python stars:>=100" and the all-empty filter set to
the empty string. -/
theorem build_search_query_clause_order (language : Option String)
    (topics : Option (List String)) (mn mx : Option Int)
    (sd : Option String) (ea ef : Bool) :
    build_search_query language topics mn mx sd ea ef
      = String.intercalate " " (languageClauses language ++
          topicClauses topics ++ starsClauses mn mx ++ pushedClauses sd ++
          archivedClauses ea ++ forkClauses ef) ∧
    build_search_query (some "python") none (some 100) none none false
        false
      = "language:python stars:>=100" ∧
    build_search_query none none none none none false false = "" := by
  refine ⟨?_, by decide, by decide⟩
  simp only [build_search_query, languageClauses, topicClauses,
    starsClauses, pushedClauses, archivedClauses, forkClauses,
    List.append_assoc, List.nil_append]
  cases topics <;> rfl

end GithubSearch
